import Mathlib

/-!
Shallow embedding of the Movie-Rating-System catalog core
(`app/repositories/movies_repository.py`, `app/services/movies_service.py`,
`app/schemas/*.py`, `app/models/*.py`).

The relational store is modelled as lists of rows; ids are `Nat`, machine
integers of the service are `Int` (Python ints are unbounded, and every
value involved is small), SQL `AVG` over integer scores is an exact
rational (`ℚ`), matching PostgreSQL's `numeric` result.
-/

/-- Row of the `directors` table (`app/models/director.py`). -/
structure Director where
  id : Nat
  name : String
  birthYear : Option Int
  description : Option String
deriving DecidableEq, Repr

/-- Row of the `genres` table (`app/models/genre.py`). -/
structure Genre where
  id : Nat
  name : String
  description : Option String
deriving DecidableEq, Repr

/-- Row of the `movies` table (`app/models/movie.py`); timestamps are
server-assigned and irrelevant to every claim, so they are omitted. -/
structure Movie where
  id : Nat
  title : String
  directorId : Nat
  releaseYear : Int
  cast : Option String
deriving DecidableEq, Repr

/-- Row of the `movie_genres` bridge table: a pure `(movie_id, genre_id)`
link (`app/models/movie_genres.py`, referenced throughout the repository). -/
structure BridgeRow where
  movieId : Nat
  genreId : Nat
deriving DecidableEq, Repr

/-- Row of the `movie_ratings` table (`app/models/movie_rating.py`);
`created_at` is server-assigned and irrelevant to every claim. -/
structure MovieRating where
  id : Nat
  movieId : Nat
  score : Int
deriving DecidableEq, Repr

/-- The relational store: one list of rows per table, plus the sequences
that generate fresh primary keys. -/
structure DB where
  directors : List Director
  genres : List Genre
  movies : List Movie
  movieGenres : List BridgeRow
  ratings : List MovieRating
  nextMovieId : Nat
  nextRatingId : Nat
deriving DecidableEq, Repr

/-- Character sequence of a string after case folding. -/
def lowerChars (s : String) : List Char :=
  s.data.map Char.toLower

/-- Modelled from the spec: SQL `ILIKE '%f%'` (the database engine is out of
scope for the source), i.e. case-insensitive substring containment of the
needle in the haystack. -/
def ilikeSub (needle haystack : String) : Prop :=
  lowerChars needle <:+: lowerChars haystack

instance (n h : String) : Decidable (ilikeSub n h) := by
  unfold ilikeSub; infer_instance

/-- Boolean form of `ilikeSub`, used where the code builds a filter. -/
def ilikeB (needle haystack : String) : Bool :=
  decide (ilikeSub needle haystack)

/-- Error taxonomy of `app/exceptions/api_exceptions.py`. -/
inductive ApiError where
  | notFound (msg : String)
  | badRequest (msg : String)
  | unprocessable (msg : String)
deriving DecidableEq, Repr

/-- One condition of the `conditions` list built by
`MoviesRepository.get_movies_paginated`. -/
inductive FilterCond where
  | titleLike (f : String)
  | yearEq (y : Int)
  | inGenreSub (f : String)
deriving DecidableEq, Repr

namespace MoviesRepository

/-- `MoviesRepository.get_movie_by_id`: first row of `movies` with the
given id (with its director and genres eagerly loaded, which the state
model makes implicit). -/
def get_movie_by_id (db : DB) (movieId : Nat) : Option Movie :=
  db.movies.find? (fun m => m.id == movieId)

/-- `MoviesRepository.get_rating_stats`: `SELECT AVG(score), COUNT(id)`
over the movie's ratings; `AVG` is `NULL` on an empty set and the exact
mean otherwise. -/
def get_rating_stats (db : DB) (movieId : Nat) : Option ℚ × Nat :=
  let rs := db.ratings.filter (fun r => r.movieId == movieId)
  let cnt := rs.length
  let avg : Option ℚ :=
    if cnt = 0 then none
    else some ((rs.map (fun r => (r.score : ℚ))).sum / (cnt : ℚ))
  (avg, cnt)

/-- `MoviesRepository.director_exists`: `COUNT(id) WHERE id = directorId > 0`. -/
def director_exists (db : DB) (directorId : Nat) : Bool :=
  (db.directors.filter (fun d => d.id == directorId)).length > 0

/-- `MoviesRepository.get_genres_by_ids`: `[]` on an empty id list,
otherwise `SELECT * FROM genres WHERE id IN genre_ids`. -/
def get_genres_by_ids (db : DB) (genreIds : List Nat) : List Genre :=
  if genreIds.isEmpty then []
  else db.genres.filter (fun g => genreIds.contains g.id)

/-- `MoviesRepository.replace_movie_genres`: delete every bridge row of the
movie, then insert one row per given id, in order. -/
def replace_movie_genres (db : DB) (movieId : Nat) (genreIds : List Nat) : DB :=
  { db with
    movieGenres :=
      db.movieGenres.filter (fun r => !(r.movieId == movieId))
        ++ genreIds.map (fun gid => { movieId := movieId, genreId := gid }) }

/-- The `conditions` list of `MoviesRepository.get_movies_paginated`:
a filter is appended only when it is truthy (`if title_filter:` — so the
empty string contributes nothing) resp. non-`None` for the year. -/
def buildConditions (titleF : Option String) (yearF : Option Int)
    (genreF : Option String) : List FilterCond :=
  (match titleF with
   | some f => if f = "" then [] else [FilterCond.titleLike f]
   | none => []) ++
  (match yearF with
   | some y => [FilterCond.yearEq y]
   | none => []) ++
  (match genreF with
   | some f => if f = "" then [] else [FilterCond.inGenreSub f]
   | none => [])

/-- The genre membership sub-query: movie ids of bridge rows whose joined
genre's name matches the filter case-insensitively. -/
def genreSubquery (db : DB) (f : String) : List Nat :=
  (db.movieGenres.filter
    (fun r => db.genres.any (fun g => r.genreId == g.id && ilikeB f g.name))).map
    (fun r => r.movieId)

/-- Truth of one condition at one movie row. -/
def condHolds (db : DB) (m : Movie) : FilterCond → Bool
  | .titleLike f => ilikeB f m.title
  | .yearEq y => m.releaseYear == y
  | .inGenreSub f => (genreSubquery db f).contains m.id

/-- The set of movie rows matched by the `WHERE and_(*conditions)` clause
(used identically by the count query and the row query). -/
def matchingMovies (db : DB) (titleF : Option String) (yearF : Option Int)
    (genreF : Option String) : List Movie :=
  db.movies.filter (fun m => (buildConditions titleF yearF genreF).all (condHolds db m))

/-- `ORDER BY Movie.id` (insertion sort is stable, like SQL's sort on the
primary key — here the key is unique so any sort agrees). -/
def sortByMovieId (l : List Movie) : List Movie :=
  List.insertionSort (fun a b => a.id ≤ b.id) l

/-- `MoviesRepository.get_movies_paginated`: count over the whole filtered
table, rows = filtered table ordered by id with
`OFFSET (page-1)*page_size LIMIT page_size`. -/
def get_movies_paginated (db : DB) (page pageSize : Nat)
    (titleF : Option String) (yearF : Option Int) (genreF : Option String) :
    List Movie × Nat :=
  let matching := matchingMovies db titleF yearF genreF
  let totalCount := matching.length
  let offset := (page - 1) * pageSize
  let movies := ((sortByMovieId matching).drop offset).take pageSize
  (movies, totalCount)

/-- `MoviesRepository.create_movie`: insert the row (the flush assigns the
next id from the sequence). -/
def create_movie (db : DB) (m : Movie) : DB :=
  { db with movies := db.movies ++ [m], nextMovieId := db.nextMovieId + 1 }

/-- `MoviesRepository.delete_movie` plus the storage-level cascades
(`ondelete="CASCADE"` on ratings, bridge rows vanish with the movie). -/
def delete_movie (db : DB) (movieId : Nat) : DB :=
  { db with
    movies := db.movies.filter (fun m => !(m.id == movieId)),
    movieGenres := db.movieGenres.filter (fun r => !(r.movieId == movieId)),
    ratings := db.ratings.filter (fun r => !(r.movieId == movieId)) }

/-- `MoviesRepository.create_rating`: insert a rating row with the next id. -/
def create_rating (db : DB) (movieId : Nat) (score : Int) : DB × MovieRating :=
  let r : MovieRating := { id := db.nextRatingId, movieId := movieId, score := score }
  ({ db with ratings := db.ratings ++ [r], nextRatingId := db.nextRatingId + 1 }, r)

end MoviesRepository

/-- `MovieCreate` (`app/schemas/movie.py`): input for movie creation;
`genre_ids` defaults to the empty list. -/
structure MovieCreate where
  title : String
  directorId : Nat
  releaseYear : Int
  cast : Option String
  genreIds : List Nat
deriving DecidableEq, Repr

/-- `MovieUpdate` (`app/schemas/movie.py`): every field optional; a `none`
means the field is absent from the request body. -/
structure MovieUpdate where
  title : Option String
  directorId : Option Nat
  releaseYear : Option Int
  cast : Option String
  genreIds : Option (List Nat)
deriving DecidableEq, Repr

/-- `RatingCreate` (`app/schemas/rating.py`): a score already accepted by
the input boundary. -/
structure RatingCreate where
  score : Int
deriving DecidableEq, Repr

/-- The Pydantic validation of `RatingCreate` (`Field(..., ge=1, le=10)`):
parsing a raw score succeeds exactly when it lies in `[1, 10]`. -/
def mkRatingCreate (score : Int) : Option RatingCreate :=
  if 1 ≤ score ∧ score ≤ 10 then some { score := score } else none

/-- `MovieDetailOut` (`app/schemas/movie.py`); the director is carried as
an `Option` (the foreign key guarantees presence in every well-formed
store, which the embedding does not bake in). -/
structure MovieDetailOut where
  id : Nat
  title : String
  director : Option Director
  releaseYear : Int
  cast : Option String
  genres : List Genre
  averageRating : Option ℚ
  ratingsCount : Nat
deriving DecidableEq, Repr

/-- `MovieListItemOut` (`app/schemas/movie.py`): list view carries genre
names only. -/
structure MovieListItemOut where
  id : Nat
  title : String
  releaseYear : Int
  director : Option Director
  genres : List String
  averageRating : Option ℚ
  ratingsCount : Nat
deriving DecidableEq, Repr

/-- `PaginatedMoviesOut` (`app/schemas/movie.py`). -/
structure PaginatedMoviesOut where
  page : Nat
  pageSize : Nat
  totalItems : Nat
  items : List MovieListItemOut
deriving DecidableEq, Repr

/-- `RatingOut` (`app/schemas/rating.py`), without the timestamp. -/
structure RatingOut where
  ratingId : Nat
  movieId : Nat
  score : Int
deriving DecidableEq, Repr

/-- The genres loaded for a movie through the `movie_genres` secondary
relationship: bridge rows of the movie joined to their genre row. -/
def genresOfMovie (db : DB) (movieId : Nat) : List Genre :=
  (db.movieGenres.filter (fun r => r.movieId == movieId)).filterMap
    (fun r => db.genres.find? (fun g => g.id == r.genreId))

/-- `sorted(set(xs))` of `MoviesService`: deduplicate, then sort ascending. -/
def sortedDedup (xs : List Nat) : List Nat :=
  List.insertionSort (fun a b => a ≤ b) xs.dedup

/-- The director row loaded through `Movie.director`. -/
def directorOfMovie (db : DB) (m : Movie) : Option Director :=
  db.directors.find? (fun d => d.id == m.directorId)

/-- The field-by-field application step of `MoviesService.update_movie`:
each input field that is present overwrites the stored one; absent fields
leave it unchanged (director is handled separately, before this step). -/
def applyFields (movie : Movie) (p : MovieUpdate) : Movie :=
  let m2 := match p.title with | some t => { movie with title := t } | none => movie
  let m3 := match p.releaseYear with | some y => { m2 with releaseYear := y } | none => m2
  match p.cast with | some c => { m3 with cast := some c } | none => m3

namespace MoviesService

/-- `MoviesService.get_movie_detail`: 404 when the movie is absent,
otherwise the assembled detail view with the rating aggregate. -/
def get_movie_detail (db : DB) (movieId : Nat) : Except ApiError MovieDetailOut :=
  match MoviesRepository.get_movie_by_id db movieId with
  | none => .error (.notFound "Movie not found")
  | some movie =>
    let stats := MoviesRepository.get_rating_stats db movieId
    .ok
      { id := movie.id
        title := movie.title
        director := directorOfMovie db movie
        releaseYear := movie.releaseYear
        cast := movie.cast
        genres := genresOfMovie db movie.id
        averageRating := stats.1
        ratingsCount := stats.2 }

/-- `MoviesService.create_movie`: validate the director, then the
(deduplicated) genre ids by cardinality comparison, then insert the row and
replace its genre links; the whole unit of work commits only on success.
A returned `.error` means the enclosing transaction never committed. -/
def create_movie (db : DB) (payload : MovieCreate) :
    Except ApiError (DB × MovieDetailOut) :=
  if !(MoviesRepository.director_exists db payload.directorId) then
    .error (.badRequest "director_id does not exist")
  else
    let uniq := sortedDedup payload.genreIds
    let genres := MoviesRepository.get_genres_by_ids db uniq
    if genres.length ≠ uniq.length then
      .error (.badRequest "One or more genre_ids do not exist")
    else
      let movie : Movie :=
        { id := db.nextMovieId
          title := payload.title
          directorId := payload.directorId
          releaseYear := payload.releaseYear
          cast := payload.cast }
      let db1 := MoviesRepository.create_movie db movie
      let db2 := MoviesRepository.replace_movie_genres db1 movie.id uniq
      match get_movie_detail db2 movie.id with
      | .ok out => .ok (db2, out)
      | .error e => .error e

/-- `MoviesService.update_movie`: 404 when absent; re-validate a provided
director id; apply exactly the provided fields; when `genre_ids` is
provided, validate it and replace the genre set wholesale; commit at the
end. A returned `.error` means the transaction never committed. -/
def update_movie (db : DB) (movieId : Nat) (p : MovieUpdate) :
    Except ApiError (DB × MovieDetailOut) :=
  match MoviesRepository.get_movie_by_id db movieId with
  | none => .error (.notFound "Movie not found")
  | some movie =>
    let afterDirector : Except ApiError Movie :=
      match p.directorId with
      | some did =>
        if MoviesRepository.director_exists db did then
          .ok { movie with directorId := did }
        else .error (.badRequest "director_id does not exist")
      | none => .ok movie
    match afterDirector with
    | .error e => .error e
    | .ok m1 =>
      let m4 := applyFields m1 p
      let db1 : DB :=
        { db with movies := db.movies.map (fun x => if x.id == movieId then m4 else x) }
      match p.genreIds with
      | some gids =>
        let uniq := sortedDedup gids
        let genres := MoviesRepository.get_genres_by_ids db1 uniq
        if genres.length ≠ uniq.length then
          .error (.badRequest "One or more genre_ids do not exist")
        else
          let db2 := MoviesRepository.replace_movie_genres db1 movieId uniq
          match get_movie_detail db2 movieId with
          | .ok out => .ok (db2, out)
          | .error e => .error e
      | none =>
        match get_movie_detail db1 movieId with
        | .ok out => .ok (db1, out)
        | .error e => .error e

/-- `MoviesService.delete_movie`: 404 when absent, else delete and commit. -/
def delete_movie (db : DB) (movieId : Nat) : Except ApiError DB :=
  match MoviesRepository.get_movie_by_id db movieId with
  | none => .error (.notFound "Movie not found")
  | some _ => .ok (MoviesRepository.delete_movie db movieId)

/-- One list item assembled by `MoviesService.get_movies_list` for one row. -/
def listItemOf (db : DB) (m : Movie) : MovieListItemOut :=
  let stats := MoviesRepository.get_rating_stats db m.id
  { id := m.id
    title := m.title
    releaseYear := m.releaseYear
    director := directorOfMovie db m
    genres := (genresOfMovie db m.id).map (fun g => g.name)
    averageRating := stats.1
    ratingsCount := stats.2 }

/-- `MoviesService.get_movies_list`: validate pagination bounds and the
release-year range, delegate to the repository, then assemble one item per
returned row plus the pagination metadata. -/
def get_movies_list (db : DB) (page pageSize : Nat) (title : Option String)
    (releaseYear : Option Int) (genre : Option String) :
    Except ApiError PaginatedMoviesOut :=
  if page < 1 then .error (.unprocessable "page must be >= 1")
  else if pageSize < 1 || pageSize > 100 then
    .error (.unprocessable "page_size must be between 1 and 100")
  else if (match releaseYear with
           | some y => y < 1888 || y > 2100
           | none => false) then
    .error (.unprocessable "Invalid release_year")
  else
    let result := MoviesRepository.get_movies_paginated db page pageSize title releaseYear genre
    .ok
      { page := page
        pageSize := pageSize
        totalItems := result.2
        items := result.1.map (listItemOf db) }

/-- `MoviesService.create_rating`: 404 when the movie is absent, else
insert the (boundary-validated) score and commit. -/
def create_rating (db : DB) (movieId : Nat) (payload : RatingCreate) :
    Except ApiError (DB × RatingOut) :=
  match MoviesRepository.get_movie_by_id db movieId with
  | none => .error (.notFound "Movie not found")
  | some _ =>
    let res := MoviesRepository.create_rating db movieId payload.score
    .ok (res.1, { ratingId := res.2.id, movieId := res.2.movieId, score := res.2.score })

end MoviesService

/-- Modelled from the spec: the per-request session lifecycle
(`app/controller/deps.py`, not under `src/`) commits a mutating operation
only on full success; "any failure aborts the transaction, leaving prior
state untouched". The observable store after an operation is therefore the
new state on `.ok` and the unchanged input state on `.error`. -/
def commitOrRollback {α : Type} (db : DB) (r : Except ApiError (DB × α)) : DB :=
  match r with
  | .ok (db2, _) => db2
  | .error _ => db

/-! ## Helper lemmas -/

/-- The empty needle is a substring of every haystack. -/
lemma ilikeSub_empty_needle (h : String) : ilikeSub "" h := by
  have he : lowerChars "" = ([] : List Char) := rfl
  show lowerChars "" <:+: lowerChars h
  rw [he]
  exact List.nil_infix

lemma condHolds_titleLike (db : DB) (m : Movie) (f : String) :
    MoviesRepository.condHolds db m (.titleLike f) = true ↔ ilikeSub f m.title := by
  simp [MoviesRepository.condHolds, ilikeB]

lemma condHolds_yearEq (db : DB) (m : Movie) (y : Int) :
    MoviesRepository.condHolds db m (.yearEq y) = true ↔ m.releaseYear = y := by
  simp [MoviesRepository.condHolds]

lemma condHolds_inGenreSub (db : DB) (m : Movie) (f : String) :
    MoviesRepository.condHolds db m (.inGenreSub f) = true ↔
      ∃ ge ∈ db.genres, BridgeRow.mk m.id ge.id ∈ db.movieGenres ∧ ilikeSub f ge.name := by
  simp only [MoviesRepository.condHolds, MoviesRepository.genreSubquery,
    List.contains_eq_any_beq, List.any_eq_true, List.mem_map, List.mem_filter,
    Bool.and_eq_true, beq_iff_eq, ilikeB, decide_eq_true_eq]
  constructor
  · rintro ⟨mid, ⟨r, ⟨hr, ge, hge, hgid, hil⟩, hmid⟩, hm2⟩
    refine ⟨ge, hge, ?_, hil⟩
    have hr2 : r = ⟨m.id, ge.id⟩ := by
      cases r
      simp_all
    rwa [hr2] at hr
  · rintro ⟨ge, hge, hbr, hil⟩
    exact ⟨m.id, ⟨⟨m.id, ge.id⟩, ⟨hbr, ge, hge, rfl, hil⟩, rfl⟩, rfl⟩

/-- Every row returned by the paginated query belongs to the filtered set. -/
lemma mem_rows_mem_matching {db : DB} {page pageSize : Nat} {t : Option String}
    {y : Option Int} {g : Option String} {m : Movie}
    (h : m ∈ (MoviesRepository.get_movies_paginated db page pageSize t y g).1) :
    m ∈ MoviesRepository.matchingMovies db t y g := by
  simp only [MoviesRepository.get_movies_paginated] at h
  have h1 := List.take_subset _ _ h
  have h2 := List.drop_subset _ _ h1
  exact (List.perm_insertionSort _ _).mem_iff.mp h2

/-- The title constraint as the spec words it: a given title filter must be
a case-insensitive substring of the movie's title. -/
def titlePart (t : Option String) (m : Movie) : Prop :=
  match t with
  | some f => ilikeSub f m.title
  | none => True

instance (t : Option String) (m : Movie) : Decidable (titlePart t m) :=
  match t with
  | some f => inferInstanceAs (Decidable (ilikeSub f m.title))
  | none => inferInstanceAs (Decidable True)

/-- The release-year constraint as the spec words it: exact equality when
the filter is given. -/
def yearPart (y : Option Int) (m : Movie) : Prop :=
  match y with
  | some yv => m.releaseYear = yv
  | none => True

instance (y : Option Int) (m : Movie) : Decidable (yearPart y m) :=
  match y with
  | some yv => inferInstanceAs (Decidable (m.releaseYear = yv))
  | none => inferInstanceAs (Decidable True)

/-- The genre constraint as claim C2 words it: a given genre filter must be
a case-insensitive substring of the name of SOME genre linked to the movie
through the bridge relation. -/
def genrePart (db : DB) (g : Option String) (m : Movie) : Prop :=
  match g with
  | some f => ∃ ge ∈ db.genres, BridgeRow.mk m.id ge.id ∈ db.movieGenres ∧ ilikeSub f ge.name
  | none => True

instance (db : DB) (g : Option String) (m : Movie) : Decidable (genrePart db g m) :=
  match g with
  | some f =>
    inferInstanceAs
      (Decidable (∃ ge ∈ db.genres, BridgeRow.mk m.id ge.id ∈ db.movieGenres ∧ ilikeSub f ge.name))
  | none => inferInstanceAs (Decidable True)

/-- The genre constraint as the code implements it: the empty string is
falsy, so an empty genre filter imposes no constraint. -/
def genrePartNE (db : DB) (g : Option String) (m : Movie) : Prop :=
  match g with
  | some f =>
      f = "" ∨ ∃ ge ∈ db.genres, BridgeRow.mk m.id ge.id ∈ db.movieGenres ∧ ilikeSub f ge.name
  | none => True

instance (db : DB) (g : Option String) (m : Movie) : Decidable (genrePartNE db g m) :=
  match g with
  | some f =>
    inferInstanceAs
      (Decidable (f = "" ∨ ∃ ge ∈ db.genres, BridgeRow.mk m.id ge.id ∈ db.movieGenres ∧ ilikeSub f ge.name))
  | none => inferInstanceAs (Decidable True)

/-- Semantics of the whole condition list: a movie satisfies the built
`WHERE` clause iff it satisfies each supplied, truthy filter. -/
lemma allConditions_iff (db : DB) (t : Option String) (y : Option Int)
    (g : Option String) (m : Movie) :
    (MoviesRepository.buildConditions t y g).all (MoviesRepository.condHolds db m) = true ↔
      (titlePart t m ∧ yearPart y m ∧ genrePartNE db g m) := by
  unfold MoviesRepository.buildConditions titlePart yearPart genrePartNE
  rcases t with _ | ft <;> rcases y with _ | yv <;> rcases g with _ | fg <;>
    simp only [List.all_append, Bool.and_eq_true, List.all_nil, List.all_cons] <;>
    first
      | (split_ifs <;>
          simp_all [condHolds_titleLike, condHolds_yearEq, condHolds_inGenreSub,
            ilikeSub_empty_needle, and_assoc])
      | simp_all [condHolds_titleLike, condHolds_yearEq, condHolds_inGenreSub,
          ilikeSub_empty_needle, and_assoc]

/-! ## Concrete stores used by witnesses and counterexamples -/

/-- A store with no rows at all. -/
def emptyDB : DB :=
  { directors := [], genres := [], movies := [], movieGenres := [], ratings := [],
    nextMovieId := 1, nextRatingId := 1 }

def directorW : Director := { id := 1, name := "Ava", birthYear := none, description := none }

def movieW : Movie := { id := 1, title := "Arrival", directorId := 1, releaseYear := 2000, cast := none }

/-- A store with one director and one movie (no genres, no ratings). -/
def dbW : DB :=
  { directors := [directorW], genres := [], movies := [movieW], movieGenres := [],
    ratings := [], nextMovieId := 2, nextRatingId := 1 }

def payloadC6 : MovieCreate :=
  { title := "M", directorId := 1, releaseYear := 2000, cast := none, genreIds := [] }

def outW0 : PaginatedMoviesOut := { page := 1, pageSize := 10, totalItems := 0, items := [] }

/-! ## Claims -/

/-- C6: a create request whose `director_id` has no Director row fails
BadRequest, and — the validation being the first step of the unit of work —
the committed store is unchanged. -/
theorem create_movie_missing_director (db : DB) (payload : MovieCreate)
    (h : MoviesRepository.director_exists db payload.directorId = false) :
    MoviesService.create_movie db payload
        = .error (.badRequest "director_id does not exist")
    ∧ commitOrRollback db (MoviesService.create_movie db payload) = db := by
  have he : MoviesService.create_movie db payload
      = .error (.badRequest "director_id does not exist") := by
    unfold MoviesService.create_movie
    rw [h]
    rfl
  exact ⟨he, by rw [he]; rfl⟩

/-- Witness for C6: creating against the empty store fails BadRequest and
leaves the store untouched. -/
theorem create_movie_missing_director_witness :
    MoviesService.create_movie emptyDB payloadC6
        = .error (.badRequest "director_id does not exist")
    ∧ commitOrRollback emptyDB (MoviesService.create_movie emptyDB payloadC6) = emptyDB :=
  create_movie_missing_director emptyDB payloadC6 rfl

/-- C10: an empty-string title or genre filter behaves exactly as an absent
filter (the repository tests truthiness), while a supplied release-year
filter is always applied: every returned row has that release year. -/
theorem empty_string_filters_ignored (db : DB) (page pageSize : Nat)
    (t g : Option String) (y : Option Int) :
    MoviesRepository.get_movies_paginated db page pageSize (some "") y g
        = MoviesRepository.get_movies_paginated db page pageSize none y g
    ∧ MoviesRepository.get_movies_paginated db page pageSize t y (some "")
        = MoviesRepository.get_movies_paginated db page pageSize t y none
    ∧ ∀ yv : Int, ∀ m ∈ (MoviesRepository.get_movies_paginated db page pageSize t (some yv) g).1,
        m.releaseYear = yv := by
  refine ⟨?_, ?_, ?_⟩
  · have hb : MoviesRepository.buildConditions (some "") y g
        = MoviesRepository.buildConditions none y g := rfl
    simp only [MoviesRepository.get_movies_paginated, MoviesRepository.matchingMovies, hb]
  · have hb : MoviesRepository.buildConditions t y (some "")
        = MoviesRepository.buildConditions t y none := by
      unfold MoviesRepository.buildConditions
      simp
    simp only [MoviesRepository.get_movies_paginated, MoviesRepository.matchingMovies, hb]
  · intro yv m hm
    have hmm := mem_rows_mem_matching hm
    simp only [MoviesRepository.matchingMovies, List.mem_filter] at hmm
    exact ((allConditions_iff db t (some yv) g m).mp hmm.2).2.1

/-- Witness for C10 on a one-movie store. -/
theorem empty_string_filters_ignored_witness :
    (MoviesRepository.get_movies_paginated dbW 1 10 (some "") (some 2000) none
      = MoviesRepository.get_movies_paginated dbW 1 10 none (some 2000) none)
    ∧ movieW.releaseYear = 2000 :=
  ⟨(empty_string_filters_ignored dbW 1 10 none none (some 2000)).1,
   (empty_string_filters_ignored dbW 1 10 none none (some 2000)).2.2 2000 movieW (by decide)⟩

/-- C1: a successful listing returns at most `pageSize` items, the item ids
are exactly the filtered table ordered by id sliced with
`offset = (page-1)*pageSize` and `limit = pageSize`, and `totalItems` is
the size of the whole filtered set, independent of the requested page. -/
theorem movies_list_pagination (db : DB) (page pageSize : Nat) (t : Option String)
    (y : Option Int) (g : Option String) (out : PaginatedMoviesOut)
    (h : MoviesService.get_movies_list db page pageSize t y g = .ok out) :
    out.totalItems = (MoviesRepository.matchingMovies db t y g).length
    ∧ out.items.length ≤ pageSize
    ∧ out.items.map (fun it => it.id)
        = (((MoviesRepository.sortByMovieId (MoviesRepository.matchingMovies db t y g)).drop
            ((page - 1) * pageSize)).take pageSize).map Movie.id := by
  unfold MoviesService.get_movies_list at h
  split at h
  · exact absurd h (by simp)
  · split at h
    · exact absurd h (by simp)
    · split at h
      · exact absurd h (by simp)
      · simp only [Except.ok.injEq] at h
        subst h
        refine ⟨?_, ?_, ?_⟩
        · simp [MoviesRepository.get_movies_paginated]
        · simp only [List.length_map, MoviesRepository.get_movies_paginated]
          exact le_trans (Nat.le_of_eq (List.length_take _ _)) (Nat.min_le_left _ _)
        · simp only [MoviesRepository.get_movies_paginated, List.map_map]
          apply List.map_congr_left
          intro m _
          rfl

/-- Witness for C1 on the empty store. -/
theorem movies_list_pagination_witness :
    outW0.totalItems = (MoviesRepository.matchingMovies emptyDB none none none).length
    ∧ outW0.items.length ≤ 10
    ∧ outW0.items.map (fun it => it.id)
        = (((MoviesRepository.sortByMovieId
              (MoviesRepository.matchingMovies emptyDB none none none)).drop
            ((1 - 1) * 10)).take 10).map Movie.id :=
  movies_list_pagination emptyDB 1 10 none none none outW0 rfl

/-- The filter predicate exactly as claim C2 words it (spec side of the
refinement): a movie passes iff a given title filter is a case-insensitive
substring of its title, a given release-year filter equals its year, and a
given genre filter is a case-insensitive substring of SOME genre linked to
it through the bridge relation; absent filters impose no constraint. -/
def SpecFilterMatch (db : DB) (t : Option String) (y : Option Int)
    (g : Option String) (m : Movie) : Prop :=
  titlePart t m ∧ yearPart y m ∧ genrePart db g m

instance (db : DB) (t : Option String) (y : Option Int) (g : Option String)
    (m : Movie) : Decidable (SpecFilterMatch db t y g m) :=
  inferInstanceAs (Decidable (titlePart t m ∧ yearPart y m ∧ genrePart db g m))

/-- The amended C2 predicate: identical, except that a genre filter
supplied as the EMPTY string imposes no constraint (the repository tests
truthiness, and the empty string is falsy). -/
def SpecFilterMatchNE (db : DB) (t : Option String) (y : Option Int)
    (g : Option String) (m : Movie) : Prop :=
  titlePart t m ∧ yearPart y m ∧ genrePartNE db g m

instance (db : DB) (t : Option String) (y : Option Int) (g : Option String)
    (m : Movie) : Decidable (SpecFilterMatchNE db t y g m) :=
  inferInstanceAs (Decidable (titlePart t m ∧ yearPart y m ∧ genrePartNE db g m))

lemma specNE_iff_allConditions (db : DB) (t : Option String) (y : Option Int)
    (g : Option String) (m : Movie) :
    SpecFilterMatchNE db t y g m ↔
      (MoviesRepository.buildConditions t y g).all (MoviesRepository.condHolds db m) = true := by
  rw [allConditions_iff]
  rfl

/-- Counterexample to C2 as stated: supply the genre filter as the empty
string against a store whose only movie has no genre link at all. The code
imposes no constraint (truthiness), so the movie appears in the listing,
yet no genre linked to it has a name containing the filter. -/
theorem filters_iff_counterexample :
    movieW ∈ (MoviesRepository.get_movies_paginated dbW 1 10 none none (some "")).1
    ∧ ¬ SpecFilterMatch dbW none none (some "") movieW := by
  constructor
  · decide
  · decide

/-- C2 (amended): a movie row is in the filtered set iff every supplied
filter holds, where an empty-string genre filter imposes no constraint; and
every row of any requested page satisfies the same predicate. -/
theorem filters_compose_iff (db : DB) (t : Option String) (y : Option Int)
    (g : Option String) (m : Movie) (hm : m ∈ db.movies) :
    (m ∈ MoviesRepository.matchingMovies db t y g ↔ SpecFilterMatchNE db t y g m)
    ∧ ∀ page pageSize,
        m ∈ (MoviesRepository.get_movies_paginated db page pageSize t y g).1 →
          SpecFilterMatchNE db t y g m := by
  constructor
  · simp only [MoviesRepository.matchingMovies, List.mem_filter]
    constructor
    · rintro ⟨_, h2⟩
      exact (specNE_iff_allConditions db t y g m).mpr h2
    · intro hs
      exact ⟨hm, (specNE_iff_allConditions db t y g m).mp hs⟩
  · intro page pageSize hrow
    have hmm := mem_rows_mem_matching hrow
    simp only [MoviesRepository.matchingMovies, List.mem_filter] at hmm
    exact (specNE_iff_allConditions db t y g m).mpr hmm.2

def genreDrama : Genre := { id := 1, name := "Drama", description := none }

def movieG : Movie := { id := 1, title := "X", directorId := 1, releaseYear := 2001, cast := none }

/-- A store with one movie linked to the genre "Drama". -/
def dbGen : DB :=
  { directors := [directorW], genres := [genreDrama], movies := [movieG],
    movieGenres := [{ movieId := 1, genreId := 1 }], ratings := [],
    nextMovieId := 2, nextRatingId := 1 }

/-- Witness for the amended C2 at the spec's own scenario: the genre filter
"dra" against a movie linked to "Drama". -/
theorem filters_compose_iff_witness :
    (movieG ∈ MoviesRepository.matchingMovies dbGen none none (some "dra")
      ↔ SpecFilterMatchNE dbGen none none (some "dra") movieG)
    ∧ ∀ page pageSize,
        movieG ∈ (MoviesRepository.get_movies_paginated dbGen page pageSize none none (some "dra")).1 →
          SpecFilterMatchNE dbGen none none (some "dra") movieG :=
  filters_compose_iff dbGen none none (some "dra") movieG (by decide)

lemma get_rating_stats_snd (db : DB) (mid : Nat) :
    (MoviesRepository.get_rating_stats db mid).2
      = (db.ratings.filter (fun r => r.movieId == mid)).length := rfl

lemma get_rating_stats_fst (db : DB) (mid : Nat) :
    (MoviesRepository.get_rating_stats db mid).1
      = if (db.ratings.filter (fun r => r.movieId == mid)).length = 0 then none
        else some (((db.ratings.filter (fun r => r.movieId == mid)).map
            (fun r => (r.score : ℚ))).sum
          / ((db.ratings.filter (fun r => r.movieId == mid)).length : ℚ)) := rfl

def dbR : DB :=
  { directors := [directorW], genres := [], movies := [movieW], movieGenres := [],
    ratings := [{ id := 1, movieId := 1, score := 4 },
                { id := 2, movieId := 1, score := 6 },
                { id := 3, movieId := 1, score := 8 }],
    nextMovieId := 2, nextRatingId := 4 }

def exDetailW : MovieDetailOut :=
  { id := 1, title := "Arrival", director := some directorW, releaseYear := 2000,
    cast := none, genres := [], averageRating := none, ratingsCount := 0 }

/-- The spec's scenario: three ratings {4,6,8} average to exactly 6. -/
lemma rating_stats_dbR : MoviesRepository.get_rating_stats dbR 1 = (some 6, 3) := by
  simp [MoviesRepository.get_rating_stats, dbR]
  norm_num

/-- C7: in the assembled detail view, the ratings count is the number of
the movie's stored ratings, the average is absent exactly when that count
is zero, and a present average is the exact arithmetic mean of the stored
scores; concretely, the movie with ratings {4,6,8} yields average 6 and
count 3. -/
theorem rating_aggregate_correct (db : DB) (mid : Nat) (out : MovieDetailOut)
    (h : MoviesService.get_movie_detail db mid = .ok out) :
    out.ratingsCount = (db.ratings.filter (fun r => r.movieId == mid)).length
    ∧ (out.averageRating = none ↔ out.ratingsCount = 0)
    ∧ (∀ q, out.averageRating = some q →
        q = ((db.ratings.filter (fun r => r.movieId == mid)).map
              (fun r => (r.score : ℚ))).sum / (out.ratingsCount : ℚ))
    ∧ MoviesRepository.get_rating_stats dbR 1 = (some 6, 3) := by
  unfold MoviesService.get_movie_detail at h
  split at h
  · exact absurd h (by simp)
  · simp only [Except.ok.injEq] at h
    subst h
    refine ⟨rfl, ?_, ?_, rating_stats_dbR⟩
    · show (MoviesRepository.get_rating_stats db mid).1 = none
        ↔ (MoviesRepository.get_rating_stats db mid).2 = 0
      rw [get_rating_stats_fst, get_rating_stats_snd]
      by_cases hc : (db.ratings.filter (fun r => r.movieId == mid)).length = 0 <;>
        simp [hc]
    · intro q hq
      have hq2 : (MoviesRepository.get_rating_stats db mid).1 = some q := hq
      show q = ((db.ratings.filter (fun r => r.movieId == mid)).map
              (fun r => (r.score : ℚ))).sum
            / ((MoviesRepository.get_rating_stats db mid).2 : ℚ)
      rw [get_rating_stats_fst] at hq2
      rw [get_rating_stats_snd]
      by_cases hc : (db.ratings.filter (fun r => r.movieId == mid)).length = 0
      · rw [if_pos hc] at hq2
        exact absurd hq2 (by simp)
      · rw [if_neg hc] at hq2
        injection hq2 with h2
        exact h2.symm

/-- Witness for C7: applying the theorem to a rating-free store (absent
average) also yields the {4,6,8} scenario aggregate. -/
theorem rating_aggregate_correct_witness :
    exDetailW.ratingsCount = (dbW.ratings.filter (fun r => r.movieId == 1)).length
    ∧ MoviesRepository.get_rating_stats dbR 1 = (some 6, 3) :=
  ⟨(rating_aggregate_correct dbW 1 exDetailW rfl).1,
   (rating_aggregate_correct dbW 1 exDetailW rfl).2.2.2⟩

lemma mem_sortedDedup {x : Nat} {xs : List Nat} : x ∈ sortedDedup xs ↔ x ∈ xs := by
  unfold sortedDedup
  exact (List.perm_insertionSort _ _).mem_iff.trans List.mem_dedup

lemma nodup_sortedDedup (xs : List Nat) : (sortedDedup xs).Nodup := by
  unfold sortedDedup
  exact (List.perm_insertionSort _ _).nodup_iff.mpr (List.nodup_dedup xs)

/-- Cardinality detection of a missing genre id: when some requested id has
no Genre row (and genre ids are unique, as the primary key guarantees), the
`WHERE id IN …` query returns strictly fewer rows than requested. -/
lemma get_genres_by_ids_ne (db : DB) (gids : List Nat)
    (hnd : (db.genres.map Genre.id).Nodup) (gid : Nat) (hmem : gid ∈ gids)
    (hmiss : ∀ ge ∈ db.genres, ge.id ≠ gid) :
    (MoviesRepository.get_genres_by_ids db (sortedDedup gids)).length
      ≠ (sortedDedup gids).length := by
  have hgu : gid ∈ sortedDedup gids := mem_sortedDedup.mpr hmem
  have hun : (sortedDedup gids).Nodup := nodup_sortedDedup gids
  have hif : (sortedDedup gids).isEmpty = false := by
    cases h : sortedDedup gids with
    | nil => rw [h] at hgu; cases hgu
    | cons a l => rfl
  unfold MoviesRepository.get_genres_by_ids
  rw [hif]
  simp only [Bool.false_eq_true, if_false]
  set uniq := sortedDedup gids with huniq
  set found := db.genres.filter (fun g => uniq.contains g.id) with hfound
  have hsub : found.Sublist db.genres := List.filter_sublist _
  have h1 : (found.map Genre.id).Nodup := List.Nodup.sublist (hsub.map Genre.id) hnd
  have h2 : (found.map Genre.id) ⊆ uniq.erase gid := by
    intro x hx
    obtain ⟨g, hg, rfl⟩ := List.mem_map.mp hx
    have hgf := List.mem_filter.mp hg
    have hxu : g.id ∈ uniq := List.elem_iff.mp hgf.2
    exact (List.mem_erase_of_ne (hmiss g hgf.1)).mpr hxu
  have h3 := (h1.subperm h2).length_le
  have h4 : (uniq.erase gid).length = uniq.length - 1 := List.length_erase_of_mem hgu
  have h5 : found.length = (found.map Genre.id).length := (List.length_map _ _).symm
  have h6 : 0 < uniq.length := List.length_pos_of_mem hgu
  omega

/-- Creating with a missing genre id always raises a BadRequest. -/
lemma create_movie_genre_invalid (db : DB) (payload : MovieCreate)
    (hnd : (db.genres.map Genre.id).Nodup)
    (hbad : ∃ gid ∈ payload.genreIds, ∀ ge ∈ db.genres, ge.id ≠ gid) :
    ∃ msg, MoviesService.create_movie db payload = .error (.badRequest msg) := by
  obtain ⟨gid, hgid, hmiss⟩ := hbad
  have hgl := get_genres_by_ids_ne db payload.genreIds hnd gid hgid hmiss
  cases hb : MoviesRepository.director_exists db payload.directorId with
  | false =>
    exact ⟨"director_id does not exist", by unfold MoviesService.create_movie; simp [hb]⟩
  | true =>
    exact ⟨"One or more genre_ids do not exist",
      by unfold MoviesService.create_movie; simp [hb, hgl]⟩

/-- Updating with a missing genre id always raises a BadRequest. -/
lemma update_movie_genre_invalid (db : DB) (movieId : Nat) (p : MovieUpdate)
    (gids : List Nat) (hpg : p.genreIds = some gids)
    (hex : ∃ m, MoviesRepository.get_movie_by_id db movieId = some m)
    (hnd : (db.genres.map Genre.id).Nodup)
    (hbad : ∃ gid ∈ gids, ∀ ge ∈ db.genres, ge.id ≠ gid) :
    ∃ msg, MoviesService.update_movie db movieId p = .error (.badRequest msg) := by
  obtain ⟨m, hm⟩ := hex
  obtain ⟨gid, hgid, hmiss⟩ := hbad
  unfold MoviesService.update_movie
  rw [hm]
  cases hd : p.directorId with
  | none =>
    refine ⟨"One or more genre_ids do not exist", ?_⟩
    simp only [hd, hpg]
    split
    · rfl
    · rename_i hcon
      exact absurd (get_genres_by_ids_ne _ gids hnd gid hgid hmiss) hcon
  | some did =>
    cases hb : MoviesRepository.director_exists db did with
    | false =>
      exact ⟨"director_id does not exist", by simp [hd, hb]⟩
    | true =>
      refine ⟨"One or more genre_ids do not exist", ?_⟩
      simp only [hd, hb, hpg, if_true]
      split
      · rfl
      · rename_i hcon
        exact absurd (get_genres_by_ids_ne _ gids hnd gid hgid hmiss) hcon

def payloadBadGenre : MovieCreate :=
  { title := "M", directorId := 1, releaseYear := 2000, cast := none, genreIds := [5] }

def updBadGenre : MovieUpdate :=
  { title := none, directorId := none, releaseYear := none, cast := none,
    genreIds := some [5] }

/-- C3: any create or update whose `genre_ids` contain an id with no Genre
row fails with BadRequest — the deduplicated request is compared by
cardinality with the rows found — and the bridge rows are unchanged. -/
theorem genre_validation_rejects (db : DB) (payload : MovieCreate) (movieId : Nat)
    (p : MovieUpdate) (gids : List Nat)
    (hnd : (db.genres.map Genre.id).Nodup) :
    ((∃ gid ∈ payload.genreIds, ∀ ge ∈ db.genres, ge.id ≠ gid) →
       (∃ msg, MoviesService.create_movie db payload = .error (.badRequest msg))
       ∧ (commitOrRollback db (MoviesService.create_movie db payload)).movieGenres
           = db.movieGenres)
    ∧ (∀ m, MoviesRepository.get_movie_by_id db movieId = some m →
        p.genreIds = some gids →
        (∃ gid ∈ gids, ∀ ge ∈ db.genres, ge.id ≠ gid) →
        (∃ msg, MoviesService.update_movie db movieId p = .error (.badRequest msg))
        ∧ (commitOrRollback db (MoviesService.update_movie db movieId p)).movieGenres
            = db.movieGenres) := by
  constructor
  · intro hbad
    have h1 := create_movie_genre_invalid db payload hnd hbad
    refine ⟨h1, ?_⟩
    obtain ⟨msg, he⟩ := h1
    rw [he]
    rfl
  · intro m hm hpg hbad
    have h1 := update_movie_genre_invalid db movieId p gids hpg ⟨m, hm⟩ hnd hbad
    refine ⟨h1, ?_⟩
    obtain ⟨msg, he⟩ := h1
    rw [he]
    rfl

/-- Witness for C3: a store with no genres rejects genre id 5 on both paths. -/
theorem genre_validation_rejects_witness :
    ((∃ msg, MoviesService.create_movie dbW payloadBadGenre = .error (.badRequest msg))
      ∧ (commitOrRollback dbW (MoviesService.create_movie dbW payloadBadGenre)).movieGenres
          = dbW.movieGenres)
    ∧ ((∃ msg, MoviesService.update_movie dbW 1 updBadGenre = .error (.badRequest msg))
      ∧ (commitOrRollback dbW (MoviesService.update_movie dbW 1 updBadGenre)).movieGenres
          = dbW.movieGenres) :=
  ⟨(genre_validation_rejects dbW payloadBadGenre 1 updBadGenre [5] (by decide)).1
      (by decide),
   (genre_validation_rejects dbW payloadBadGenre 1 updBadGenre [5] (by decide)).2
      movieW (by decide) rfl (by decide)⟩

/-- C4: when an update of an existing movie carries genre ids that fail
existence validation, the call fails BadRequest and the committed store is
bit-for-bit the pre-call store: no field of the movie and no genre link is
committed. -/
theorem update_atomic_on_genre_error (db : DB) (movieId : Nat) (p : MovieUpdate)
    (m : Movie) (gids : List Nat)
    (hnd : (db.genres.map Genre.id).Nodup)
    (hm : MoviesRepository.get_movie_by_id db movieId = some m)
    (hpg : p.genreIds = some gids)
    (hbad : ∃ gid ∈ gids, ∀ ge ∈ db.genres, ge.id ≠ gid) :
    (∃ msg, MoviesService.update_movie db movieId p = .error (.badRequest msg))
    ∧ commitOrRollback db (MoviesService.update_movie db movieId p) = db := by
  have h1 := update_movie_genre_invalid db movieId p gids hpg ⟨m, hm⟩ hnd hbad
  refine ⟨h1, ?_⟩
  obtain ⟨msg, he⟩ := h1
  rw [he]
  rfl

/-- Witness for C4 at a concrete store. -/
theorem update_atomic_on_genre_error_witness :
    (∃ msg, MoviesService.update_movie dbW 1 updBadGenre = .error (.badRequest msg))
    ∧ commitOrRollback dbW (MoviesService.update_movie dbW 1 updBadGenre) = dbW :=
  update_atomic_on_genre_error dbW 1 updBadGenre movieW [5] (by decide) (by decide) rfl
    (by decide)

lemma applyFields_id (m : Movie) (p : MovieUpdate) : (applyFields m p).id = m.id := by
  unfold applyFields
  cases p.title <;> cases p.releaseYear <;> cases p.cast <;> rfl

lemma applyFields_directorId (m : Movie) (p : MovieUpdate) :
    (applyFields m p).directorId = m.directorId := by
  unfold applyFields
  cases p.title <;> cases p.releaseYear <;> cases p.cast <;> rfl

lemma applyFields_title (m : Movie) (p : MovieUpdate) (h : p.title = none) :
    (applyFields m p).title = m.title := by
  unfold applyFields
  rw [h]
  cases p.releaseYear <;> cases p.cast <;> rfl

lemma applyFields_year (m : Movie) (p : MovieUpdate) (h : p.releaseYear = none) :
    (applyFields m p).releaseYear = m.releaseYear := by
  unfold applyFields
  rw [h]
  cases p.title <;> cases p.cast <;> rfl

lemma applyFields_cast (m : Movie) (p : MovieUpdate) (h : p.cast = none) :
    (applyFields m p).cast = m.cast := by
  unfold applyFields
  rw [h]
  cases p.title <;> cases p.releaseYear <;> rfl

/-- `find?` on the per-row replacement map: the first hit is replaced. -/
lemma find?_map_update (movies : List Movie) (movieId : Nat) (mNew : Movie)
    (hNew : (mNew.id == movieId) = true) :
    (movies.map (fun x => if x.id == movieId then mNew else x)).find?
        (fun x => x.id == movieId)
      = (movies.find? (fun x => x.id == movieId)).map (fun _ => mNew) := by
  induction movies with
  | nil => rfl
  | cons a l ih =>
    by_cases ha : (a.id == movieId) = true
    · rw [List.map_cons, if_pos ha]
      have h1 : List.find? (fun x => x.id == movieId)
          (mNew :: List.map (fun x => if x.id == movieId then mNew else x) l)
          = some mNew := by
        simp [List.find?_cons, hNew]
      have h2 : List.find? (fun x => x.id == movieId) (a :: l) = some a := by
        simp [List.find?_cons, ha]
      rw [h1, h2]
      rfl
    · rw [List.map_cons, if_neg ha]
      have h1 : List.find? (fun x => x.id == movieId)
          (a :: List.map (fun x => if x.id == movieId then mNew else x) l)
          = List.find? (fun x => x.id == movieId)
              (List.map (fun x => if x.id == movieId then mNew else x) l) := by
        simp [List.find?_cons, ha]
      have h2 : List.find? (fun x => x.id == movieId) (a :: l)
          = List.find? (fun x => x.id == movieId) l := by
        simp [List.find?_cons, ha]
      rw [h1, h2, ih]

/-- Behaviour of the genre-sync / commit tail of `update_movie`, for an
arbitrary session state `db1`. -/
lemma update_tail_ok (db1 : DB) (movieId : Nat) (gOpt : Option (List Nat))
    (db' : DB) (out : MovieDetailOut)
    (h : (match gOpt with
          | some gids =>
            let uniq := sortedDedup gids
            let genres := MoviesRepository.get_genres_by_ids db1 uniq
            if genres.length ≠ uniq.length then
              Except.error (ApiError.badRequest "One or more genre_ids do not exist")
            else
              let db2 := MoviesRepository.replace_movie_genres db1 movieId uniq
              match MoviesService.get_movie_detail db2 movieId with
              | .ok o => .ok (db2, o)
              | .error e => .error e
          | none =>
            match MoviesService.get_movie_detail db1 movieId with
            | .ok o => .ok (db1, o)
            | .error e => .error e) = Except.ok (db', out)) :
    db'.movies = db1.movies
    ∧ db'.ratings = db1.ratings
    ∧ ((gOpt = none ∧ db'.movieGenres = db1.movieGenres)
       ∨ ∃ gids, gOpt = some gids
            ∧ db'.movieGenres
                = db1.movieGenres.filter (fun r => !(r.movieId == movieId))
                  ++ (sortedDedup gids).map
                      (fun gid => { movieId := movieId, genreId := gid })) := by
  cases gOpt with
  | none =>
    replace h :
        (match MoviesService.get_movie_detail db1 movieId with
         | .ok o => Except.ok (db1, o)
         | .error e => Except.error e) = Except.ok (db', out) := h
    split at h
    · simp only [Except.ok.injEq, Prod.mk.injEq] at h
      obtain ⟨hdb, _⟩ := h
      rw [← hdb]
      exact ⟨rfl, rfl, Or.inl ⟨rfl, rfl⟩⟩
    · exact absurd h (by simp)
  | some gids =>
    replace h :
        (if (MoviesRepository.get_genres_by_ids db1 (sortedDedup gids)).length
              ≠ (sortedDedup gids).length then
          Except.error (ApiError.badRequest "One or more genre_ids do not exist")
        else
          match MoviesService.get_movie_detail
              (MoviesRepository.replace_movie_genres db1 movieId (sortedDedup gids))
              movieId with
          | .ok o =>
            Except.ok (MoviesRepository.replace_movie_genres db1 movieId (sortedDedup gids), o)
          | .error e => Except.error e) = Except.ok (db', out) := h
    by_cases hc : (MoviesRepository.get_genres_by_ids db1 (sortedDedup gids)).length
        ≠ (sortedDedup gids).length
    · rw [if_pos hc] at h
      exact absurd h (by simp)
    · rw [if_neg hc] at h
      split at h
      · simp only [Except.ok.injEq, Prod.mk.injEq] at h
        obtain ⟨hdb, _⟩ := h
        rw [← hdb]
        exact ⟨rfl, rfl, Or.inr ⟨gids, rfl, rfl⟩⟩
      · exact absurd h (by simp)

/-- Shape of every successful update: the stored row is replaced by the
field application of the (possibly director-adjusted) row, and the bridge
is untouched or wholesale-replaced according to the presence of
`genre_ids`. -/
lemma update_movie_ok_shape (db : DB) (movieId : Nat) (p : MovieUpdate)
    (db' : DB) (out : MovieDetailOut)
    (h : MoviesService.update_movie db movieId p = .ok (db', out)) :
    ∃ m m1,
      MoviesRepository.get_movie_by_id db movieId = some m
      ∧ (p.directorId = none → m1 = m)
      ∧ (∀ did, p.directorId = some did → m1 = { m with directorId := did })
      ∧ db'.movies = db.movies.map (fun x => if x.id == movieId then applyFields m1 p else x)
      ∧ db'.ratings = db.ratings
      ∧ ((p.genreIds = none ∧ db'.movieGenres = db.movieGenres)
         ∨ ∃ gids, p.genreIds = some gids
              ∧ db'.movieGenres
                  = db.movieGenres.filter (fun r => !(r.movieId == movieId))
                    ++ (sortedDedup gids).map
                        (fun gid => { movieId := movieId, genreId := gid })) := by
  unfold MoviesService.update_movie at h
  cases hm0 : MoviesRepository.get_movie_by_id db movieId with
  | none =>
    rw [hm0] at h
    exact absurd h (by simp)
  | some m =>
    rw [hm0] at h
    cases hd : p.directorId with
    | none =>
      simp only [hd] at h
      have htail := update_tail_ok
        { db with
          movies := db.movies.map (fun x => if x.id == movieId then applyFields m p else x) }
        movieId p.genreIds db' out h
      exact ⟨m, m, rfl, fun _ => rfl, (fun did hdid => nomatch hdid), htail.1,
        htail.2.1, htail.2.2⟩
    | some did =>
      cases hb : MoviesRepository.director_exists db did with
      | false =>
        simp only [hd, hb, Bool.false_eq_true, if_false] at h
        exact absurd h (by simp)
      | true =>
        simp only [hd, hb, eq_self_iff_true, if_true] at h
        have htail := update_tail_ok
          { db with
            movies := db.movies.map
              (fun x =>
                if x.id == movieId then applyFields { m with directorId := did } p else x) }
          movieId p.genreIds db' out h
        refine ⟨m, { m with directorId := did }, rfl,
          (fun hnone => nomatch hnone), (fun did' hdid' => ?_),
          htail.1, htail.2.1, htail.2.2⟩
        cases hdid'
        rfl

lemma filter_after_remove (rows : List BridgeRow) (mid : Nat) :
    (rows.filter (fun r => !(r.movieId == mid))).filter (fun r => r.movieId == mid) = [] := by
  induction rows with
  | nil => rfl
  | cons a l ih =>
    by_cases ha : (a.movieId == mid) = true
    · simp [List.filter_cons, ha, ih]
    · simp [List.filter_cons, ha, ih]

/-- C5: partial-update semantics — every field absent from the input keeps
its stored value; an absent `genre_ids` leaves the bridge rows untouched; a
provided `genre_ids` replaces the movie's genre set wholesale, and the
empty list clears every link of the movie. -/
theorem update_partial_semantics (db : DB) (movieId : Nat) (p : MovieUpdate)
    (m : Movie) (db' : DB) (out : MovieDetailOut)
    (hm : MoviesRepository.get_movie_by_id db movieId = some m)
    (h : MoviesService.update_movie db movieId p = .ok (db', out)) :
    ∃ m', MoviesRepository.get_movie_by_id db' movieId = some m'
      ∧ (p.title = none → m'.title = m.title)
      ∧ (p.directorId = none → m'.directorId = m.directorId)
      ∧ (p.releaseYear = none → m'.releaseYear = m.releaseYear)
      ∧ (p.cast = none → m'.cast = m.cast)
      ∧ (p.genreIds = none → db'.movieGenres = db.movieGenres)
      ∧ (∀ gids, p.genreIds = some gids →
          db'.movieGenres
            = db.movieGenres.filter (fun r => !(r.movieId == movieId))
              ++ (sortedDedup gids).map (fun gid => { movieId := movieId, genreId := gid }))
      ∧ (p.genreIds = some [] →
          db'.movieGenres.filter (fun r => r.movieId == movieId) = []) := by
  obtain ⟨m0, m1, hm0, hdirN, hdirS, hmov, hrat0, hgen⟩ :=
    update_movie_ok_shape db movieId p db' out h
  rw [hm] at hm0
  injection hm0 with he
  subst he
  have hm1 : m1.title = m.title ∧ m1.releaseYear = m.releaseYear ∧ m1.cast = m.cast
      ∧ m1.id = m.id := by
    cases hd : p.directorId with
    | none => rw [hdirN hd]; exact ⟨rfl, rfl, rfl, rfl⟩
    | some did => rw [hdirS did hd]; exact ⟨rfl, rfl, rfl, rfl⟩
  have hid : ((applyFields m1 p).id == movieId) = true := by
    rw [applyFields_id, hm1.2.2.2]
    have hm' : db.movies.find? (fun x => x.id == movieId) = some m := hm
    have h3 := @List.find?_some Movie (fun x => x.id == movieId) m db.movies hm'
    exact h3
  have hfind : MoviesRepository.get_movie_by_id db' movieId = some (applyFields m1 p) := by
    unfold MoviesRepository.get_movie_by_id
    rw [hmov, find?_map_update db.movies movieId (applyFields m1 p) hid]
    unfold MoviesRepository.get_movie_by_id at hm
    rw [hm]
    rfl
  refine ⟨applyFields m1 p, hfind, ?_, ?_, ?_, ?_, ?_, ?_, ?_⟩
  · intro ht
    rw [applyFields_title m1 p ht, hm1.1]
  · intro hdn
    rw [applyFields_directorId, hdirN hdn]
  · intro hy
    rw [applyFields_year m1 p hy, hm1.2.1]
  · intro hc
    rw [applyFields_cast m1 p hc, hm1.2.2.1]
  · intro hgn
    rcases hgen with ⟨_, hmg⟩ | ⟨gids, hgs, _⟩
    · exact hmg
    · rw [hgn] at hgs; cases hgs
  · intro gids hgs
    rcases hgen with ⟨hgn, _⟩ | ⟨gids', hgs', hmg⟩
    · rw [hgn] at hgs; cases hgs
    · rw [hgs] at hgs'
      injection hgs' with he2
      subst he2
      exact hmg
  · intro hge
    rcases hgen with ⟨hgn, _⟩ | ⟨gids', hgs', hmg⟩
    · rw [hge] at hgn; cases hgn
    · rw [hge] at hgs'
      injection hgs' with he2
      subst he2
      rw [hmg]
      rw [show sortedDedup [] = ([] : List Nat) from rfl]
      simp only [List.map_nil, List.append_nil]
      exact filter_after_remove db.movieGenres movieId

def updW : MovieUpdate :=
  { title := none, directorId := none, releaseYear := some 1999, cast := none,
    genreIds := some [] }

def movieGY : Movie := { id := 1, title := "X", directorId := 1, releaseYear := 1999, cast := none }

def dbGenY : DB :=
  { directors := [directorW], genres := [genreDrama], movies := [movieGY],
    movieGenres := [], ratings := [], nextMovieId := 2, nextRatingId := 1 }

def outGenY : MovieDetailOut :=
  { id := 1, title := "X", director := some directorW, releaseYear := 1999,
    cast := none, genres := [], averageRating := none, ratingsCount := 0 }

/-- Witness for C5: a concrete update that sets only the release year and
clears the genre set. -/
theorem update_partial_semantics_witness :
    ∃ m', MoviesRepository.get_movie_by_id dbGenY 1 = some m'
      ∧ (updW.title = none → m'.title = movieG.title)
      ∧ (updW.directorId = none → m'.directorId = movieG.directorId)
      ∧ (updW.releaseYear = none → m'.releaseYear = movieG.releaseYear)
      ∧ (updW.cast = none → m'.cast = movieG.cast)
      ∧ (updW.genreIds = none → dbGenY.movieGenres = dbGen.movieGenres)
      ∧ (∀ gids, updW.genreIds = some gids →
          dbGenY.movieGenres
            = dbGen.movieGenres.filter (fun r => !(r.movieId == 1))
              ++ (sortedDedup gids).map (fun gid => { movieId := 1, genreId := gid }))
      ∧ (updW.genreIds = some [] →
          dbGenY.movieGenres.filter (fun r => r.movieId == 1) = []) :=
  update_partial_semantics dbGen 1 updW movieG dbGenY outGenY rfl rfl

/-- Genre ids linked to one movie in the bridge table. -/
def genreIdsOf (rows : List BridgeRow) (mid : Nat) : List Nat :=
  (rows.filter (fun r => r.movieId == mid)).map (fun r => r.genreId)

/-- Invariant: no movie's genre set contains a duplicate link. -/
def BridgeNodup (rows : List BridgeRow) : Prop :=
  ∀ mid, (genreIdsOf rows mid).Nodup

/-- Invariant: every stored rating's score lies in [1, 10]. -/
def ScoresValid (db : DB) : Prop :=
  ∀ r ∈ db.ratings, 1 ≤ r.score ∧ r.score ≤ 10

/-- One successful service-level unit of work (ratings arrive through the
validated input boundary `mkRatingCreate`). -/
inductive Step : DB → DB → Prop where
  | createM (p : MovieCreate) (db db' : DB) (out : MovieDetailOut)
      (h : MoviesService.create_movie db p = .ok (db', out)) : Step db db'
  | updateM (movieId : Nat) (p : MovieUpdate) (db db' : DB) (out : MovieDetailOut)
      (h : MoviesService.update_movie db movieId p = .ok (db', out)) : Step db db'
  | deleteM (movieId : Nat) (db db' : DB)
      (h : MoviesService.delete_movie db movieId = .ok db') : Step db db'
  | rate (movieId : Nat) (s : Int) (rc : RatingCreate) (db db' : DB) (out : RatingOut)
      (hv : mkRatingCreate s = some rc)
      (h : MoviesService.create_rating db movieId rc = .ok (db', out)) : Step db db'

/-- A freshly seeded catalog: directors and genres are seeded externally,
no movies, bridge rows or ratings exist yet. -/
def initDB (ds : List Director) (gs : List Genre) : DB :=
  { directors := ds, genres := gs, movies := [], movieGenres := [], ratings := [],
    nextMovieId := 1, nextRatingId := 1 }

/-- Stores reachable from a seeded catalog through successful operations
(a failed operation rolls back and does not change the store). -/
inductive Reachable : DB → Prop where
  | init (ds : List Director) (gs : List Genre) : Reachable (initDB ds gs)
  | step {db db' : DB} : Reachable db → Step db db' → Reachable db'

/-- Effect of a successful movie creation on bridge rows and ratings. -/
lemma create_movie_ok_effect (db : DB) (p : MovieCreate) (db' : DB)
    (out : MovieDetailOut)
    (h : MoviesService.create_movie db p = .ok (db', out)) :
    db'.movieGenres
      = db.movieGenres.filter (fun r => !(r.movieId == db.nextMovieId))
        ++ (sortedDedup p.genreIds).map
            (fun gid => { movieId := db.nextMovieId, genreId := gid })
    ∧ db'.ratings = db.ratings := by
  unfold MoviesService.create_movie at h
  cases hb : MoviesRepository.director_exists db p.directorId with
  | false =>
    simp only [hb, Bool.not_false, if_true] at h
    exact absurd h (by simp)
  | true =>
    simp only [hb, Bool.not_true, Bool.false_eq_true, if_false] at h
    by_cases hc : (MoviesRepository.get_genres_by_ids db (sortedDedup p.genreIds)).length
        ≠ (sortedDedup p.genreIds).length
    · rw [if_pos hc] at h
      exact absurd h (by simp)
    · rw [if_neg hc] at h
      split at h
      · simp only [Except.ok.injEq, Prod.mk.injEq] at h
        obtain ⟨hdb, _⟩ := h
        rw [← hdb]
        exact ⟨rfl, rfl⟩
      · exact absurd h (by simp)

/-- Effect of a successful deletion: the movie's bridge rows and ratings
are cascaded away, everything else survives. -/
lemma delete_movie_ok_effect (db : DB) (movieId : Nat) (db' : DB)
    (h : MoviesService.delete_movie db movieId = .ok db') :
    db'.movieGenres = db.movieGenres.filter (fun r => !(r.movieId == movieId))
    ∧ db'.ratings = db.ratings.filter (fun r => !(r.movieId == movieId)) := by
  unfold MoviesService.delete_movie at h
  cases hm : MoviesRepository.get_movie_by_id db movieId with
  | none =>
    rw [hm] at h
    exact absurd h (by simp)
  | some m =>
    rw [hm] at h
    simp only [Except.ok.injEq] at h
    rw [← h]
    exact ⟨rfl, rfl⟩

/-- Effect of a successful rating creation. -/
lemma create_rating_ok_effect (db : DB) (movieId : Nat) (rc : RatingCreate)
    (db' : DB) (out : RatingOut)
    (h : MoviesService.create_rating db movieId rc = .ok (db', out)) :
    db'.ratings
      = db.ratings ++ [{ id := db.nextRatingId, movieId := movieId, score := rc.score }]
    ∧ db'.movieGenres = db.movieGenres := by
  unfold MoviesService.create_rating at h
  cases hm : MoviesRepository.get_movie_by_id db movieId with
  | none =>
    rw [hm] at h
    exact absurd h (by simp)
  | some m =>
    rw [hm] at h
    simp only [Except.ok.injEq, Prod.mk.injEq] at h
    obtain ⟨hdb, _⟩ := h
    rw [← hdb]
    exact ⟨rfl, rfl⟩

lemma mkRatingCreate_some (s : Int) (rc : RatingCreate)
    (h : mkRatingCreate s = some rc) : rc.score = s ∧ 1 ≤ s ∧ s ≤ 10 := by
  unfold mkRatingCreate at h
  by_cases hb : 1 ≤ s ∧ s ≤ 10
  · rw [if_pos hb] at h
    injection h with he
    refine ⟨?_, hb.1, hb.2⟩
    rw [← he]
  · rw [if_neg hb] at h
    cases h

lemma mkRatingCreate_none (s : Int) (hs : s < 1 ∨ 10 < s) :
    mkRatingCreate s = none := by
  unfold mkRatingCreate
  rw [if_neg (by omega)]

/-- Replacing one movie's bridge rows with a duplicate-free id list keeps
the no-duplicates invariant of the whole table. -/
lemma bridgeNodup_replace (rows : List BridgeRow) (mid : Nat) (gids : List Nat)
    (hg : gids.Nodup) (h : BridgeNodup rows) :
    BridgeNodup (rows.filter (fun r => !(r.movieId == mid))
      ++ gids.map (fun gid => { movieId := mid, genreId := gid })) := by
  intro mid'
  unfold genreIdsOf
  rw [List.filter_append, List.map_append]
  by_cases hmm : mid' = mid
  · subst hmm
    rw [filter_after_remove rows mid']
    have h2 : (gids.map (fun gid => ({ movieId := mid', genreId := gid } : BridgeRow))).filter
        (fun r => r.movieId == mid') = gids.map (fun gid => { movieId := mid', genreId := gid }) := by
      rw [List.filter_eq_self]
      intro r hr
      obtain ⟨gid, _, rfl⟩ := List.mem_map.mp hr
      simp
    rw [h2]
    simp only [List.map_nil, List.nil_append]
    rw [List.map_map]
    have hcomp : ((fun r : BridgeRow => r.genreId)
        ∘ fun gid => ({ movieId := mid', genreId := gid } : BridgeRow)) = id := rfl
    rw [hcomp, List.map_id]
    exact hg
  · have h2 : (gids.map (fun gid => ({ movieId := mid, genreId := gid } : BridgeRow))).filter
        (fun r => r.movieId == mid') = [] := by
      rw [List.filter_eq_nil_iff]
      intro r hr
      obtain ⟨gid, _, rfl⟩ := List.mem_map.mp hr
      simp only [beq_iff_eq]
      exact fun he => hmm he.symm
    rw [h2]
    simp only [List.map_nil, List.append_nil]
    have hsub : ((rows.filter (fun r => !(r.movieId == mid))).filter
          (fun r => r.movieId == mid')).Sublist (rows.filter (fun r => r.movieId == mid')) :=
      List.Sublist.filter _ (List.filter_sublist rows)
    exact List.Nodup.sublist (hsub.map _) (h mid')

/-- The combined invariant, by induction over reachability. -/
lemma reachable_invariant (db : DB) (h : Reachable db) :
    BridgeNodup db.movieGenres ∧ ScoresValid db := by
  induction h with
  | init ds gs =>
    refine ⟨fun mid => ?_, fun r hr => ?_⟩
    · simp [genreIdsOf, initDB]
    · simp [initDB] at hr
  | step hr hs ih =>
    obtain ⟨ihb, ihs⟩ := ih
    cases hs with
    | createM p dba dbb out hok =>
      obtain ⟨hmg, hrat⟩ := create_movie_ok_effect _ p _ out hok
      refine ⟨?_, fun r hr => ?_⟩
      · rw [hmg]
        exact bridgeNodup_replace _ _ _ (nodup_sortedDedup _) ihb
      · rw [hrat] at hr
        exact ihs r hr
    | updateM mid p dba dbb out hok =>
      obtain ⟨m, m1, _, _, _, _, hrat, hgen⟩ := update_movie_ok_shape _ mid p _ out hok
      refine ⟨?_, fun r hr => ?_⟩
      · rcases hgen with ⟨_, hmg⟩ | ⟨gids, _, hmg⟩
        · rw [hmg]
          exact ihb
        · rw [hmg]
          exact bridgeNodup_replace _ _ _ (nodup_sortedDedup _) ihb
      · rw [hrat] at hr
        exact ihs r hr
    | deleteM mid dba dbb hok =>
      obtain ⟨hmg, hrat⟩ := delete_movie_ok_effect _ mid _ hok
      refine ⟨fun mid' => ?_, fun r hr => ?_⟩
      · rw [hmg]
        show (genreIdsOf _ mid').Nodup
        unfold genreIdsOf
        exact List.Nodup.sublist
          ((List.Sublist.filter _ (List.filter_sublist _)).map _) (ihb mid')
      · rw [hrat] at hr
        exact ihs r (List.mem_filter.mp hr).1
    | rate mid s rc dba dbb out hv hok =>
      obtain ⟨hrat, hmg⟩ := create_rating_ok_effect _ mid rc _ out hok
      obtain ⟨hscore, hs1, hs2⟩ := mkRatingCreate_some s rc hv
      refine ⟨?_, fun r hr => ?_⟩
      · rw [hmg]
        exact ihb
      · rw [hrat] at hr
        rcases List.mem_append.mp hr with h1 | h1
        · exact ihs r h1
        · rw [List.mem_singleton.mp h1]
          show 1 ≤ rc.score ∧ rc.score ≤ 10
          omega

/-- C8: after every successful create or update — and in fact in every
reachable store — no movie's genre set contains a duplicate link: the input
ids are deduplicated before the bridge rows are written, and replacement
deletes the old rows first. -/
theorem genre_links_nodup (db : DB) (h : Reachable db) :
    BridgeNodup db.movieGenres :=
  (reachable_invariant db h).1

def payloadC8 : MovieCreate :=
  { title := "A", directorId := 1, releaseYear := 2000, cast := none, genreIds := [1, 1] }

def dbAfterCreate : DB :=
  { directors := [directorW], genres := [genreDrama],
    movies := [{ id := 1, title := "A", directorId := 1, releaseYear := 2000, cast := none }],
    movieGenres := [{ movieId := 1, genreId := 1 }], ratings := [],
    nextMovieId := 2, nextRatingId := 1 }

def outAfterCreate : MovieDetailOut :=
  { id := 1, title := "A", director := some directorW, releaseYear := 2000, cast := none,
    genres := [genreDrama], averageRating := none, ratingsCount := 0 }

/-- Witness for C8: one concrete create (with a duplicated input id) from a
seeded store yields a duplicate-free genre set. -/
theorem genre_links_nodup_witness : BridgeNodup dbAfterCreate.movieGenres :=
  genre_links_nodup dbAfterCreate
    (Reachable.step (Reachable.init [directorW] [genreDrama])
      (Step.createM payloadC8 (initDB [directorW] [genreDrama]) dbAfterCreate
        outAfterCreate rfl))

/-- C9: a rating score outside [1,10] is rejected at the input boundary
(`mkRatingCreate` yields no payload), and consequently every persisted
rating in every reachable store has score in [1,10]. -/
theorem rating_scores_in_range :
    (∀ s : Int, (s < 1 ∨ 10 < s) → mkRatingCreate s = none)
    ∧ ∀ db : DB, Reachable db → ∀ r ∈ db.ratings, 1 ≤ r.score ∧ r.score ≤ 10 :=
  ⟨mkRatingCreate_none, fun db h => (reachable_invariant db h).2⟩

def dbAfterRate : DB :=
  { directors := [directorW], genres := [genreDrama],
    movies := [{ id := 1, title := "A", directorId := 1, releaseYear := 2000, cast := none }],
    movieGenres := [{ movieId := 1, genreId := 1 }],
    ratings := [{ id := 1, movieId := 1, score := 7 }],
    nextMovieId := 2, nextRatingId := 2 }

/-- Witness for C9: score 11 is rejected at the boundary, and a concrete
reachable store holding one accepted rating satisfies the invariant. -/
theorem rating_scores_in_range_witness :
    mkRatingCreate 11 = none
    ∧ ∀ r ∈ dbAfterRate.ratings, 1 ≤ r.score ∧ r.score ≤ 10 :=
  ⟨rating_scores_in_range.1 11 (Or.inr (by decide)),
   rating_scores_in_range.2 dbAfterRate
     (Reachable.step
       (Reachable.step (Reachable.init [directorW] [genreDrama])
         (Step.createM payloadC8 (initDB [directorW] [genreDrama]) dbAfterCreate
           outAfterCreate rfl))
       (Step.rate 1 7 { score := 7 } dbAfterCreate dbAfterRate
         { ratingId := 1, movieId := 1, score := 7 } rfl rfl))⟩
